import Mathlib

/-!
# Ecolyze — shallow embedding and verification

A shallow embedding of `src/Ecolyze/app.py`: a small ETL dashboard that
fetches a CSV of CO₂ emissions, filters it, bulk-loads it into a cloud
warehouse table, runs a top-5-by-country aggregation for a selected year,
mirrors the result into a document store, and trains/queries a managed
linear-regression model.

External managed services (the warehouse and the document store) are not
code of this repository; their operations are modelled from the spec's
interface descriptions (§4.2 overwrite load, §6 protocol operations):
tables are lists of rows, the load overwrites the destination table's
contents, the document-store write is delete-all-then-insert, and the
managed regression's numeric inference is kept abstract (a parameter),
since reimplementing it is an explicit non-goal of the spec.
-/

namespace Ecolyze

/-- Fixed warehouse identifiers from the top of `app.py`. -/
def DATASET_NAME : String := "eco_ai_dataset"

/-- Fixed warehouse table name from the top of `app.py`. -/
def TABLE_NAME : String := "emissions"

/-- Fixed model artifact name from the top of `app.py`. -/
def ML_MODEL_NAME : String := "emissions_forecast"

/-- An emissions record: the four tracked columns, all present
(`df[["country", "year", "co2", "population"]].dropna()` output shape).
Numeric columns are modelled as integers. -/
structure Row where
  country : String
  year : Int
  co2 : Int
  population : Int
deriving DecidableEq, Repr

/-- A raw CSV row as fetched: the four tracked columns, each possibly
missing, plus a stand-in for the remaining CSV columns (also possibly
missing) that the projection `df[["country", "year", "co2", "population"]]`
drops before `dropna`. -/
structure RawRow where
  country : Option String
  year : Option Int
  co2 : Option Int
  population : Option Int
  gdp : Option Int
deriving DecidableEq, Repr

/-- Projection of a raw row to the four tracked columns; `none` when any of
the four is missing (so `dropna` removes the row). The extra column `gdp`
is dropped by the projection and does not influence the result. -/
def RawRow.proj : RawRow → Option Row
  | ⟨some c, some y, some e, some p, _⟩ => some ⟨c, y, e, p⟩
  | _ => none

/-- `load_data`: project the fetched CSV to the four tracked columns, drop
rows with a missing value among them, then keep rows with `year >= 2000`.
Embeds lines 27–32 of `app.py`. -/
def load_data (csv : List RawRow) : List Row :=
  (csv.filterMap RawRow.proj).filter (fun r => r.year ≥ 2000)

/-- A warehouse error surfaced by a client call. `notFound` is the
"dataset does not exist" condition; the others stand for any other
warehouse-side failure. -/
inductive BQError where
  | notFound
  | permissionDenied
  | quotaExceeded
deriving DecidableEq, Repr

/-- An aggregation result row: `{country, total_co2}`. -/
structure SummaryRow where
  country : String
  total_co2 : Int
deriving DecidableEq, Repr

/-- A trained forecast model artifact: what the `CREATE OR REPLACE MODEL`
statement records — the hard-coded training country, the label column, the
feature columns, and the training rows captured from the warehouse table. -/
structure ModelArtifact where
  trainCountry : String
  label : String
  features : List String
  trainRows : List Row
deriving DecidableEq, Repr

/-- Warehouse state: whether the destination dataset exists, the contents
of the `emissions` table, and the named model artifacts of the dataset. -/
structure BQState where
  datasetExists : Bool
  table : List Row
  models : List (String × ModelArtifact)
deriving DecidableEq, Repr

/-- `push_to_bigquery` (body, lines 34–45): check whether the destination
dataset exists (`get_dataset`); on ANY exception from the check, create the
dataset (`except Exception: create_dataset`); then bulk-load the in-memory
table into the destination table and block until the job completes.
Overwrite-load semantics per spec §4.2. The outcomes of the three external
calls are parameters: `getErr`/`createErr`/`loadErr` is `none` when the
call succeeds and `some e` when it raises `e`. -/
def push_to_bigquery (df : List Row)
    (getErr createErr loadErr : Option BQError) (bq : BQState) :
    Except BQError (List Row × BQState) := do
  let bq1 ←
    match getErr with
    | none => pure bq
    | some _ =>
      match createErr with
      | none => pure { bq with datasetExists := true }
      | some e => throw e
  match loadErr with
  | some e => throw e
  | none => pure (df, { bq1 with table := df })

/-- The descending-total order used by `ORDER BY total_co2 DESC`. -/
def sumDesc (a b : SummaryRow) : Prop := b.total_co2 ≤ a.total_co2

instance : DecidableRel sumDesc := fun a b =>
  inferInstanceAs (Decidable (b.total_co2 ≤ a.total_co2))

instance : IsTotal SummaryRow sumDesc :=
  ⟨fun a b => le_total b.total_co2 a.total_co2⟩

instance : IsTrans SummaryRow sumDesc :=
  ⟨fun _ _ _ h1 h2 => le_trans h2 h1⟩

/-- `query_summary` (lines 47–56): the aggregation SQL
`SELECT country, SUM(co2) AS total_co2 ... WHERE year = {year}
GROUP BY country ORDER BY total_co2 DESC LIMIT 5` evaluated over the
warehouse table: keep the rows of the requested year, group them by
country summing `co2`, sort descending by total, truncate to 5. -/
def query_summary (year : Int) (table : List Row) : List SummaryRow :=
  let rows := table.filter (fun r => r.year = year)
  let countries := (rows.map Row.country).dedup
  let grouped := countries.map (fun c =>
    { country := c
      total_co2 := ((rows.filter (fun r => r.country = c)).map Row.co2).sum : SummaryRow })
  (List.insertionSort sumDesc grouped).take 5

/-- Document-store state: the contents of the `emissions_data` collection. -/
structure MongoState where
  docs : List SummaryRow
deriving DecidableEq, Repr

/-- `store_to_mongo` (lines 58–64): unconditionally delete every document
in the target collection (`delete_many` with the empty filter), then insert
the rows of the aggregation result as documents (`insert_many` of the
record list, per the spec's document-store interface), and return `True`. -/
def store_to_mongo (df : List SummaryRow) (_m : MongoState) : Bool × MongoState :=
  let afterDelete : MongoState := ⟨[]⟩
  let afterInsert : MongoState := ⟨afterDelete.docs ++ df⟩
  (true, afterInsert)

/-- `create_ml_model` (lines 66–74): issue
`CREATE OR REPLACE MODEL ... OPTIONS(model_type='linear_reg',
input_label_cols=['co2']) AS SELECT year, population, co2 FROM ...
WHERE country = 'India'`: replace any artifact of the fixed name with a
fresh one trained on the India rows of the current table, with `co2` as
label and `{year, population}` as features. -/
def create_ml_model (bq : BQState) : BQState :=
  let art : ModelArtifact :=
    { trainCountry := "India"
      label := "co2"
      features := ["year", "population"]
      trainRows := bq.table.filter (fun r => r.country = "India") }
  { bq with
    models := (ML_MODEL_NAME, art) :: bq.models.filter (fun kv => kv.1 ≠ ML_MODEL_NAME) }

/-- A forecast prediction row: `{year, predicted_co2}`. -/
structure PredRow where
  year : Int
  predicted_co2 : Int
deriving DecidableEq, Repr

/-- `predict_co2` (lines 76–83): `SELECT year, predicted_co2 FROM
ML.PREDICT(MODEL ..., (SELECT year, population FROM ... WHERE
country='India' AND year >= 2015))`. Inference of the managed regression is
abstract: `infer` maps the artifact and a `(year, population)` input row to
the predicted value. Returns `none` when no artifact of the fixed name
exists (the warehouse rejects the query). -/
def predict_co2 (infer : ModelArtifact → Int → Int → Int) (bq : BQState) :
    Option (List PredRow) :=
  match bq.models.lookup ML_MODEL_NAME with
  | none => none
  | some art =>
    some ((bq.table.filter (fun r => r.country = "India" ∧ r.year ≥ 2015)).map
      (fun r => ⟨r.year, infer art r.year r.population⟩))

/-- Process-lifetime memoization state: `@st.cache_data` on `load_data`
and `@st.cache_resource` on `push_to_bigquery`, plus counters for the
external effects (remote CSV fetches, warehouse load jobs) used to state
the at-most-once properties. -/
structure ProcState where
  loadCache : Option (List Row)
  syncCache : Option (List Row)
  fetchCount : Nat
  loadJobCount : Nat
deriving DecidableEq, Repr

/-- `load_data` as called through `@st.cache_data`: on a hit return the
cached table; on a miss perform the remote fetch (counted) and cache the
filtered table. -/
def load_data_cached (csv : List RawRow) (p : ProcState) : List Row × ProcState :=
  match p.loadCache with
  | some df => (df, p)
  | none =>
    let df := load_data csv
    (df, { p with loadCache := some df, fetchCount := p.fetchCount + 1 })

/-- `push_to_bigquery` as called through `@st.cache_resource`: on a hit
return the cached table without touching the warehouse; on a miss run the
body — call the cached loader, execute the load job (counted; success path,
overwrite load) — and cache the returned table. -/
def push_to_bigquery_cached (csv : List RawRow) (p : ProcState) (bq : BQState) :
    List Row × ProcState × BQState :=
  match p.syncCache with
  | some df => (df, p, bq)
  | none =>
    let r := load_data_cached csv p
    let df := r.1
    let p1 := r.2
    (df,
     { p1 with syncCache := some df, loadJobCount := p1.loadJobCount + 1 },
     { bq with table := df })

/-- A user-triggered call into the memoized layer within one process. -/
inductive Action where
  | load
  | push
deriving DecidableEq, Repr

/-- One call: how a process-state/warehouse-state pair evolves under an
`Action`. -/
def step (csv : List RawRow) (s : ProcState × BQState) (a : Action) :
    ProcState × BQState :=
  match a with
  | .load => ((load_data_cached csv s.1).2, s.2)
  | .push =>
    let r := push_to_bigquery_cached csv s.1 s.2
    (r.2.1, r.2.2)

/-- The state of a freshly started process: empty caches, no external
effects performed yet. -/
def freshProc : ProcState := ⟨none, none, 0, 0⟩

/-- The training statement issued by `create_ml_model`: every interpolated
piece is a constant of the script, so the statement is a fixed value. -/
structure TrainStmt where
  modelName : String
  label : String
  features : List String
  trainCountry : String
  sourceTable : String
deriving DecidableEq, Repr

/-- The (constant) statement text content of `create_ml_model`. -/
def create_ml_model_statement : TrainStmt :=
  { modelName := ML_MODEL_NAME
    label := "co2"
    features := ["year", "population"]
    trainCountry := "India"
    sourceTable := TABLE_NAME }

/-- The result of one "Run Analysis" click. -/
structure RunResult where
  summary : List SummaryRow
  prediction : Option (List PredRow)
  stmt : TrainStmt
  proc : ProcState
  bq : BQState
  mongo : MongoState
deriving Repr

/-- The "Run Analysis" button handler (lines 89–97):
`push_to_bigquery(); summary_df = query_summary(year);
store_to_mongo(summary_df); create_ml_model(); prediction_df =
predict_co2()`. -/
def run_analysis (infer : ModelArtifact → Int → Int → Int) (year : Int)
    (csv : List RawRow) (p : ProcState) (bq : BQState) (m : MongoState) :
    RunResult :=
  let r := push_to_bigquery_cached csv p bq
  let p1 := r.2.1
  let bq1 := r.2.2
  let summary := query_summary year bq1.table
  let m1 := (store_to_mongo summary m).2
  let bq2 := create_ml_model bq1
  let pred := predict_co2 infer bq2
  { summary := summary
    prediction := pred
    stmt := create_ml_model_statement
    proc := p1
    bq := bq2
    mongo := m1 }

/-! ## Theorems -/

/-- C1: running the warehouse sync twice on unchanged source data leaves the
destination table's row count for that load unchanged — each successful sync
overwrites the table's prior contents with the in-memory table `df`, so no
duplicate rows accumulate across repeated syncs. -/
theorem push_to_bigquery_idempotent (df : List Row) (bq bq1 bq2 : BQState)
    (h1 : push_to_bigquery df none none none bq = Except.ok (df, bq1))
    (h2 : push_to_bigquery df none none none bq1 = Except.ok (df, bq2)) :
    bq1.table = df ∧ bq2.table = df ∧ bq2.table.length = bq1.table.length := by
  have e1 : push_to_bigquery df none none none bq =
      Except.ok (df, { bq with table := df }) := rfl
  have e2 : push_to_bigquery df none none none bq1 =
      Except.ok (df, { bq1 with table := df }) := rfl
  rw [e1] at h1
  rw [e2] at h2
  obtain ⟨-, h1⟩ := Prod.mk.injEq .. ▸ Except.ok.inj h1
  obtain ⟨-, h2⟩ := Prod.mk.injEq .. ▸ Except.ok.inj h2
  subst h1; subst h2
  exact ⟨rfl, rfl, rfl⟩

/-- Witness for C1 at a concrete table and warehouse state. -/
theorem push_to_bigquery_idempotent_witness :
    (BQState.mk true [Row.mk "India" 2020 5 7] []).table = [Row.mk "India" 2020 5 7] ∧
    (BQState.mk true [Row.mk "India" 2020 5 7] []).table = [Row.mk "India" 2020 5 7] ∧
    (BQState.mk true [Row.mk "India" 2020 5 7] []).table.length =
      (BQState.mk true [Row.mk "India" 2020 5 7] []).table.length :=
  push_to_bigquery_idempotent [Row.mk "India" 2020 5 7]
    (BQState.mk true [] []) (BQState.mk true [Row.mk "India" 2020 5 7] [])
    (BQState.mk true [Row.mk "India" 2020 5 7] []) rfl rfl

/-- C4 counterexample: a `permissionDenied` error raised during the existence
check is NOT propagated — the bare `except Exception:` handler catches it and
creates the dataset, and the sync then returns successfully. So "dataset not
found" is not the only handled error during the existence check. -/
theorem push_check_error_swallowed :
    push_to_bigquery [] (some BQError.permissionDenied) none none
        (BQState.mk false [] []) =
      Except.ok ([], BQState.mk true [] []) ∧
    push_to_bigquery [] (some BQError.permissionDenied) none none
        (BQState.mk false [] []) ≠
      Except.error BQError.permissionDenied :=
  ⟨rfl, fun h => nomatch h⟩

/-- C4 amended: any error raised during the existence check (not only
"dataset not found") is handled by creating the dataset; errors raised by
the dataset creation or by the load propagate uncaught to the caller. -/
theorem push_error_propagation (df : List Row) (bq : BQState) (g ce le : BQError) :
    push_to_bigquery df (some g) none none bq =
      Except.ok (df, { bq with datasetExists := true, table := df }) ∧
    push_to_bigquery df (some g) (some ce) (some le) bq = Except.error ce ∧
    push_to_bigquery df (some g) (some ce) none bq = Except.error ce ∧
    push_to_bigquery df none none (some le) bq = Except.error le ∧
    push_to_bigquery df (some g) none (some le) bq = Except.error le :=
  ⟨rfl, rfl, rfl, rfl, rfl⟩

/-- C6: after a mirror write, the collection's content equals exactly the
rows of the written aggregation result, whatever the prior contents of the
collection were; the call reports success. -/
theorem store_to_mongo_full_replace (df : List SummaryRow) (m : MongoState) :
    (store_to_mongo df m).2.docs = df ∧ (store_to_mongo df m).1 = true :=
  ⟨List.nil_append df, rfl⟩

/-- C8: every invocation of the forecast trainer leaves exactly one model
artifact of the fixed name in the dataset (create-or-replace), and that
artifact is trained from scratch on the current table's rows for the single
hard-coded country, with `co2` as label and `{year, population}` as
features. -/
theorem create_ml_model_replace (bq : BQState) :
    ((create_ml_model bq).models.countP (fun kv => kv.1 = ML_MODEL_NAME)) = 1 ∧
    (create_ml_model bq).models.lookup ML_MODEL_NAME =
      some (ModelArtifact.mk "India" "co2" ["year", "population"]
        (bq.table.filter (fun r => r.country = "India"))) := by
  constructor
  · have hz : (bq.models.filter (fun kv => kv.1 ≠ ML_MODEL_NAME)).countP
        (fun kv => kv.1 = ML_MODEL_NAME) = 0 := by
      rw [List.countP_eq_zero]
      intro kv hkv
      simpa using (List.mem_filter.mp hkv).2
    rw [create_ml_model, List.countP_cons, hz]
    simp
  · rw [create_ml_model]
    simp [List.lookup]

/-- C5: the dataset loader's output is characterized by: a record is in the
output iff it is the projection of some fetched raw row with none of the
four tracked columns missing and its year is ≥ 2000; in particular every
output row has year ≥ 2000 and (by type) no missing value. -/
theorem load_data_characterization (csv : List RawRow) (r : Row) :
    (r ∈ load_data csv ↔ (∃ raw ∈ csv, raw.proj = some r) ∧ r.year ≥ 2000) ∧
    (∀ s ∈ load_data csv, s.year ≥ 2000) := by
  constructor
  · rw [load_data, List.mem_filter]
    simp [List.mem_filterMap]
  · intro s hs
    rw [load_data, List.mem_filter] at hs
    simpa using hs.2

/-- Witness for C5: a concrete CSV with a missing-country row, a pre-2000
row and a surviving row. -/
theorem load_data_characterization_witness :
    (Row.mk "India" 2020 5 7).year ≥ 2000 :=
  (load_data_characterization
      [RawRow.mk (some "India") (some 2020) (some 5) (some 7) none,
       RawRow.mk none (some 2020) (some 1) (some 1) (some 3),
       RawRow.mk (some "X") (some 1999) (some 1) (some 1) none]
      (Row.mk "India" 2020 5 7)).2
    (Row.mk "India" 2020 5 7) (by decide)

/-- C2: a requested year with zero matching rows yields an empty aggregation
result, and the subsequent mirror write succeeds (returns `true`) and leaves
the collection empty — not an error. -/
theorem query_summary_empty_year (year : Int) (table : List Row) (m : MongoState)
    (h : ∀ r ∈ table, r.year ≠ year) :
    query_summary year table = [] ∧
    store_to_mongo (query_summary year table) m = (true, MongoState.mk []) := by
  have hf : table.filter (fun r => r.year = year) = [] := by
    rw [List.filter_eq_nil_iff]
    intro a ha
    simpa using h a ha
  have hq : query_summary year table = [] := by
    simp [query_summary, hf]
  exact ⟨hq, by rw [hq]; rfl⟩

/-- Witness for C2: year 2020 against a table containing only a 2019 row,
with a non-empty prior collection. -/
theorem query_summary_empty_year_witness :
    query_summary 2020 [Row.mk "India" 2019 1 1] = [] ∧
    store_to_mongo (query_summary 2020 [Row.mk "India" 2019 1 1])
      (MongoState.mk [SummaryRow.mk "X" 3]) = (true, MongoState.mk []) :=
  query_summary_empty_year 2020 [Row.mk "India" 2019 1 1]
    (MongoState.mk [SummaryRow.mk "X" 3]) (by decide)

/-- C7: every row returned by the forecast predictor is (by type) of shape
`{year, predicted_co2}` and stems from a warehouse row of the fixed target
country "India" with year ≥ 2015. -/
theorem predict_co2_restriction (infer : ModelArtifact → Int → Int → Int)
    (bq : BQState) (preds : List PredRow)
    (h : predict_co2 infer bq = some preds) :
    ∀ q ∈ preds, q.year ≥ 2015 ∧
      ∃ r ∈ bq.table, r.country = "India" ∧ r.year = q.year := by
  cases hl : bq.models.lookup ML_MODEL_NAME with
  | none =>
    rw [predict_co2, hl] at h
    exact nomatch h
  | some art =>
    rw [predict_co2, hl] at h
    obtain rfl := Option.some.inj h
    intro q hq
    rw [List.mem_map] at hq
    obtain ⟨r, hr, rfl⟩ := hq
    rw [List.mem_filter] at hr
    have hp : r.country = "India" ∧ r.year ≥ 2015 := by simpa using hr.2
    exact ⟨hp.2, r, hr.1, hp.1, rfl⟩

/-- Witness for C7: a freshly trained model over a two-row table; the
predictor returns exactly the 2016 India row. -/
theorem predict_co2_restriction_witness :
    (PredRow.mk 2016 0).year ≥ 2015 ∧
    ∃ r ∈ (create_ml_model (BQState.mk true
        [Row.mk "India" 2016 5 7, Row.mk "USA" 2020 3 3] [])).table,
      r.country = "India" ∧ r.year = (PredRow.mk 2016 0).year :=
  predict_co2_restriction (fun _ _ _ => 0)
    (create_ml_model (BQState.mk true
      [Row.mk "India" 2016 5 7, Row.mk "USA" 2020 3 3] []))
    [PredRow.mk 2016 0] (by decide) (PredRow.mk 2016 0) (by decide)

/-- The concrete scenario table from the spec: year-2020 country totals
India 2500 (split across two rows), USA 5000, China 9000, Brazil 400,
Germany 600, France 300, plus one out-of-scope 2019 row. -/
def scenarioTable : List Row :=
  [Row.mk "India" 2020 1500 100, Row.mk "USA" 2020 5000 50,
   Row.mk "China" 2020 9000 200, Row.mk "India" 2020 1000 100,
   Row.mk "Brazil" 2020 400 30, Row.mk "Germany" 2020 600 20,
   Row.mk "France" 2020 300 10, Row.mk "USA" 2019 9999 50]

/-- C3 counterexample: with two countries tied on total_co2 for the year,
the aggregation result is NOT strictly sorted descending (the claim's
"strictly sorted" fails; the order is only weakly descending). -/
theorem query_summary_not_strictly_sorted :
    query_summary 2020 [Row.mk "A" 2020 5 1, Row.mk "B" 2020 5 1] =
      [SummaryRow.mk "A" 5, SummaryRow.mk "B" 5] ∧
    ¬ List.Sorted (fun a b : SummaryRow => a.total_co2 > b.total_co2)
        (query_summary 2020 [Row.mk "A" 2020 5 1, Row.mk "B" 2020 5 1]) := by
  constructor
  · decide
  · decide

/-- C3 amended ("strictly sorted descending" weakened to "sorted in
non-increasing order", which ties between distinct countries force): for
every year the aggregation result has at most 5 rows, is sorted
non-increasingly by total_co2, each row's total is the sum of co2 over the
warehouse rows of that country for that year, every row's country occurs in
the table for that year; and on the spec's concrete 2020 scenario the
result is exactly [China 9000, USA 5000, India 2500, Germany 600,
Brazil 400]. -/
theorem query_summary_correct (year : Int) (table : List Row) :
    (query_summary year table).length ≤ 5 ∧
    List.Sorted sumDesc (query_summary year table) ∧
    (∀ s ∈ query_summary year table,
      s.total_co2 = (((table.filter (fun r => r.year = year)).filter
          (fun r => r.country = s.country)).map Row.co2).sum ∧
      ∃ r ∈ table, r.year = year ∧ r.country = s.country) ∧
    query_summary 2020 scenarioTable =
      [SummaryRow.mk "China" 9000, SummaryRow.mk "USA" 5000,
       SummaryRow.mk "India" 2500, SummaryRow.mk "Germany" 600,
       SummaryRow.mk "Brazil" 400] := by
  refine ⟨?_, ?_, ?_, by decide⟩
  · simp only [query_summary]
    exact List.length_take_le 5 _
  · simp only [query_summary]
    exact List.Pairwise.sublist (List.take_sublist 5 _)
      (List.sorted_insertionSort sumDesc _)
  · intro s hs
    simp only [query_summary] at hs
    have h1 : s ∈ List.insertionSort sumDesc
        (((table.filter (fun r => r.year = year)).map Row.country).dedup.map
          (fun c => SummaryRow.mk c
            ((((table.filter (fun r => r.year = year)).filter
              (fun r => r.country = c)).map Row.co2).sum))) :=
      (List.take_sublist 5 _).subset hs
    have h2 := (List.perm_insertionSort sumDesc _).mem_iff.mp h1
    rw [List.mem_map] at h2
    obtain ⟨c, hc, rfl⟩ := h2
    refine ⟨rfl, ?_⟩
    rw [List.mem_dedup, List.mem_map] at hc
    obtain ⟨r, hr, hrc⟩ := hc
    rw [List.mem_filter] at hr
    exact ⟨r, hr.1, by simpa using hr.2, hrc⟩

/-- Witness for C3 (amended) at the head row of the concrete scenario. -/
theorem query_summary_correct_witness :
    (SummaryRow.mk "China" 9000).total_co2 =
      (((scenarioTable.filter (fun r => r.year = 2020)).filter
          (fun r => r.country = (SummaryRow.mk "China" 9000).country)).map
        Row.co2).sum ∧
    ∃ r ∈ scenarioTable, r.year = 2020 ∧
      r.country = (SummaryRow.mk "China" 9000).country :=
  (query_summary_correct 2020 scenarioTable).2.2.1
    (SummaryRow.mk "China" 9000) (by decide)

/-- Invariant tying the memoization caches to the external-effect counters:
each effect has happened at most once, and not at all while its cache is
still empty. -/
def ProcState.countsOK (p : ProcState) : Prop :=
  p.fetchCount ≤ 1 ∧ p.loadJobCount ≤ 1 ∧
  (p.loadCache = none → p.fetchCount = 0) ∧
  (p.syncCache = none → p.loadJobCount = 0)

theorem countsOK_load (csv : List RawRow) (p : ProcState) (h : p.countsOK) :
    ((load_data_cached csv p).2).countsOK := by
  rcases p with ⟨lc, sc, f, j⟩
  cases lc with
  | some df => exact h
  | none =>
    obtain ⟨-, h2, h3, h4⟩ := h
    have hf : f = 0 := h3 rfl
    subst hf
    simp only [load_data_cached]
    exact ⟨le_refl 1, h2, fun hx => Option.noConfusion hx, h4⟩

theorem countsOK_push (csv : List RawRow) (p : ProcState) (bq : BQState)
    (h : p.countsOK) : ((push_to_bigquery_cached csv p bq).2.1).countsOK := by
  rcases p with ⟨lc, sc, f, j⟩
  cases sc with
  | some df => exact h
  | none =>
    have hj : j = 0 := h.2.2.2 rfl
    subst hj
    cases lc with
    | some df' =>
      simp only [push_to_bigquery_cached, load_data_cached]
      exact ⟨h.1, le_refl 1, fun hx => Option.noConfusion hx, fun hx => Option.noConfusion hx⟩
    | none =>
      have hf : f = 0 := h.2.2.1 rfl
      subst hf
      simp only [push_to_bigquery_cached, load_data_cached]
      exact ⟨le_refl 1, le_refl 1, fun hx => Option.noConfusion hx, fun hx => Option.noConfusion hx⟩

theorem countsOK_step (csv : List RawRow) (s : ProcState × BQState) (a : Action)
    (h : s.1.countsOK) : ((step csv s a).1).countsOK := by
  cases a with
  | load => exact countsOK_load csv s.1 h
  | push => exact countsOK_push csv s.1 s.2 h

theorem countsOK_foldl (csv : List RawRow) (acts : List Action)
    (s : ProcState × BQState) (h : s.1.countsOK) :
    ((acts.foldl (step csv) s).1).countsOK := by
  induction acts generalizing s with
  | nil => exact h
  | cons a as ih => exact ih (step csv s a) (countsOK_step csv s a h)

/-- C9: within one process lifetime, over any sequence of (memoized) loader
and sync calls starting from a fresh process, the remote CSV fetch happens
at most once and the warehouse load job executes at most once; moreover a
repeated call is a no-op returning the same cached table (both memoized
entry points are idempotent on the process state). -/
theorem caching_at_most_once (csv : List RawRow) (acts : List Action)
    (bq0 : BQState) :
    ((acts.foldl (step csv) (freshProc, bq0)).1).fetchCount ≤ 1 ∧
    ((acts.foldl (step csv) (freshProc, bq0)).1).loadJobCount ≤ 1 ∧
    (∀ p : ProcState,
      load_data_cached csv (load_data_cached csv p).2 = load_data_cached csv p) ∧
    (∀ (p : ProcState) (bq : BQState),
      push_to_bigquery_cached csv (push_to_bigquery_cached csv p bq).2.1
          (push_to_bigquery_cached csv p bq).2.2 =
        push_to_bigquery_cached csv p bq) := by
  have hfresh : freshProc.countsOK :=
    ⟨Nat.zero_le 1, Nat.zero_le 1, fun _ => rfl, fun _ => rfl⟩
  have hinv := countsOK_foldl csv acts (freshProc, bq0) hfresh
  refine ⟨hinv.1, hinv.2.1, ?_, ?_⟩
  · intro p
    rcases p with ⟨lc, sc, f, j⟩
    cases lc <;> rfl
  · intro p bq
    rcases p with ⟨lc, sc, f, j⟩
    cases sc with
    | some df => rfl
    | none => cases lc <;> rfl

/-- C10: the forecast branch does not depend on the user-selected year.
For any two selected years and identical initial states, one "Run Analysis"
click issues the same (constant) training statement, produces the same
warehouse state (table and model artifact) and the same prediction rows;
the year influences only the aggregation/mirror branch. -/
theorem forecast_independent_of_year (infer : ModelArtifact → Int → Int → Int)
    (y1 y2 : Int) (csv : List RawRow) (p : ProcState) (bq : BQState)
    (m : MongoState) :
    (run_analysis infer y1 csv p bq m).prediction =
      (run_analysis infer y2 csv p bq m).prediction ∧
    (run_analysis infer y1 csv p bq m).stmt =
      (run_analysis infer y2 csv p bq m).stmt ∧
    (run_analysis infer y1 csv p bq m).bq =
      (run_analysis infer y2 csv p bq m).bq ∧
    (run_analysis infer y1 csv p bq m).proc =
      (run_analysis infer y2 csv p bq m).proc :=
  ⟨rfl, rfl, rfl, rfl⟩

end Ecolyze
